import Mathlib

/-!
Verification of the portfolio single-page application.

Shallow embedding of the state-bearing parts of the repository:

* `SECTIONS` and the active-section tracker (App.jsx, the `Portfolio`
  component): one `IntersectionObserver` per registered section id; each
  observer callback runs `if (entry.isIntersecting) setActiveSection(id)`.
* the route switch (App.jsx, the `App` component): path `"/"` renders the
  main portfolio layout, `"/blog"` renders the blog gallery page, no other
  route is declared.
* the dark-mode state and its document-root effect
  (`document.documentElement.classList.toggle('dark', darkMode)`).
* the animation preset `fadeUp` (utils/animations.js) together with the
  local duplicate defined at the top of About.jsx.
* the blog gallery selection state (`useState(null)` lightbox) with the
  thumbnail click handler and the lightbox dismissal handlers (Blog.jsx).
* the navigation click handlers of Navbar.jsx (desktop list and mobile
  drawer) with their external/new-tab branch.

State and effects of the browser environment (DOM class list, opened tabs,
scroll target, observer connections, event bubbling) are made explicit as
record fields and event lists, so that frame properties can be stated.
-/

/-- The Section Registry of App.jsx:
`const SECTIONS = ['about', 'cp-life', 'projects', 'skills', 'experience', 'resume', 'connect']`. -/
def SECTIONS : List String :=
  ["about", "cp-life", "projects", "skills", "experience", "resume", "connect"]

/-- `useState('about')` — the initial value of the active-section state. -/
def initialActiveSection : String := "about"

/-- The observer option `{ threshold: 0.35 }` passed to every
`IntersectionObserver` in App.jsx. -/
def observerThreshold : ℚ := 0.35

/-- One delivery of an intersection-observer callback for the observer
attached to the section with id `id`.  `isIntersecting` is the value of
`entry.isIntersecting` seen by the callback. -/
structure VisEvent where
  id : String
  isIntersecting : Bool
deriving DecidableEq

/-- The body of the observer callback in App.jsx:
`([entry]) => { if (entry.isIntersecting) setActiveSection(id) }`.
`active` is the current active-section state, the result is the state
after the callback has run. -/
def processEvent (active : String) (e : VisEvent) : String :=
  if e.isIntersecting then e.id else active

/-- Folding the observer callback over a whole sequence of delivered
visibility events (the rendering environment serialises the callbacks). -/
def processEvents (active : String) (es : List VisEvent) : String :=
  es.foldl processEvent active

/-- Helper: the callback only ever writes the id of the observer that
fired, so membership in the registry is preserved by any event sequence
whose events come from registered observers. -/
theorem processEvents_mem (es : List VisEvent) :
    ∀ active : String, active ∈ SECTIONS → (∀ e ∈ es, e.id ∈ SECTIONS) →
      processEvents active es ∈ SECTIONS := by
  induction es with
  | nil => intro active ha _; simpa [processEvents] using ha
  | cons e rest ih =>
    intro active ha h
    have hstep : processEvent active e ∈ SECTIONS := by
      unfold processEvent
      split
      · exact h e (List.mem_cons_self _ _)
      · exact ha
    have hrest : ∀ x ∈ rest, x.id ∈ SECTIONS := fun x hx =>
      h x (List.mem_cons_of_mem _ hx)
    simpa [processEvents, List.foldl_cons] using ih (processEvent active e) hstep hrest

/-- Claim C1: the active-section state starts as the registry's first
identifier (`'about'`), and after any sequence of visibility events whose
events come from observers attached to registered sections, the state is
still a member of the Section Registry (it is a total `String`, never
undefined, and never leaves the registry). -/
theorem activeSection_registry_invariant (es : List VisEvent)
    (h : ∀ e ∈ es, e.id ∈ SECTIONS) :
    SECTIONS.head? = some initialActiveSection ∧
    initialActiveSection ∈ SECTIONS ∧
    processEvents initialActiveSection es ∈ SECTIONS := by
  refine ⟨rfl, by decide, ?_⟩
  exact processEvents_mem es initialActiveSection (by decide) h

/-- Concrete instantiation of `activeSection_registry_invariant`. -/
theorem activeSection_registry_invariant_witness :
    (∀ e ∈ [VisEvent.mk "projects" true, VisEvent.mk "skills" false], e.id ∈ SECTIONS) ∧
    processEvents initialActiveSection
      [VisEvent.mk "projects" true, VisEvent.mk "skills" false] ∈ SECTIONS :=
  ⟨by decide,
   (activeSection_registry_invariant
     [VisEvent.mk "projects" true, VisEvent.mk "skills" false] (by decide)).2.2⟩

/-- Claim C2: if every delivered event reports its section as newly
intersecting (exactly one section at a time crosses the 35% threshold into
view), the active-section state after the sequence is the id carried by
the last event. -/
theorem activeSection_tracks_last_crossing (active : String)
    (es : List VisEvent) (lastE : VisEvent)
    (hl : es.getLast? = some lastE)
    (h : ∀ e ∈ es, e.isIntersecting = true) :
    processEvents active es = lastE.id := by
  induction es generalizing active with
  | nil => simp at hl
  | cons e rest ih =>
    cases rest with
    | nil =>
      have he : e = lastE := by simpa using hl
      subst he
      simp [processEvents, processEvent, h e (List.mem_cons_self _ _)]
    | cons f rest2 =>
      have hl2 : (f :: rest2).getLast? = some lastE := by
        simpa [List.getLast?_cons_cons] using hl
      have h2 : ∀ x ∈ f :: rest2, x.isIntersecting = true := fun x hx =>
        h x (List.mem_cons_of_mem _ hx)
      simpa [processEvents, List.foldl_cons] using
        ih (processEvent active e) hl2 h2

/-- Concrete instantiation of `activeSection_tracks_last_crossing`. -/
theorem activeSection_tracks_last_crossing_witness :
    ([VisEvent.mk "about" true, VisEvent.mk "projects" true].getLast?
        = some (VisEvent.mk "projects" true)) ∧
    processEvents "about" [VisEvent.mk "about" true, VisEvent.mk "projects" true]
      = "projects" :=
  ⟨by decide,
   activeSection_tracks_last_crossing "about"
     [VisEvent.mk "about" true, VisEvent.mk "projects" true]
     (VisEvent.mk "projects" true) (by decide) (by decide)⟩

/-- The two pages a route of App.jsx can render. -/
inductive RenderedPage where
  | portfolioPage
  | blogGalleryPage
deriving DecidableEq

/-- The route switch of App.jsx:
`<Route path="/" element={<Portfolio />} />` and
`<Route path="/blog" element={<Blog />} />`.
The router matches the current pathname against the declared route paths
and renders the matching route's element; a pathname matching no declared
route renders nothing, modelled as `none`. -/
def appRoutes (path : String) : Option RenderedPage :=
  if path = "/" then some RenderedPage.portfolioPage
  else if path = "/blog" then some RenderedPage.blogGalleryPage
  else none

/-- Counterexample to claim C3 as stated: the path `"/contact"` differs
from `"/blog"`, yet the route switch does not render the main layout for
it (no declared route matches, so nothing is rendered). -/
theorem routeSwitch_claim_cex :
    "/contact" ≠ "/blog" ∧
    appRoutes "/contact" ≠ some RenderedPage.portfolioPage ∧
    appRoutes "/contact" = none := by
  refine ⟨by decide, ?_, rfl⟩
  intro h
  simp [appRoutes] at h

/-- Claim C3 (amended): the route switch renders the gallery page iff the
path equals `"/blog"`, renders the main single-page layout iff the path
equals `"/"`, and any other path matches no declared route (nothing is
rendered). -/
theorem routeSwitch_amended (path : String) :
    (appRoutes path = some RenderedPage.blogGalleryPage ↔ path = "/blog") ∧
    (appRoutes path = some RenderedPage.portfolioPage ↔ path = "/") ∧
    (path ≠ "/" → path ≠ "/blog" → appRoutes path = none) := by
  unfold appRoutes
  by_cases h1 : path = "/"
  · subst h1; simp
  · by_cases h2 : path = "/blog"
    · subst h2; simp
    · simp [h1, h2]

/-- Concrete instantiation of `routeSwitch_amended`. -/
theorem routeSwitch_amended_witness : appRoutes "/contact2" = none :=
  (routeSwitch_amended "/contact2").2.2 (by decide) (by decide)

/-- A Framer Motion animation target: the `{ opacity, y }` records used as
`initial` and `whileInView` values. -/
structure MotionTarget where
  opacity : ℚ
  y : ℚ
deriving DecidableEq

/-- The `viewport` option record `{ once: true }`. -/
structure ViewportOptions where
  once : Bool
deriving DecidableEq

/-- The `transition` record `{ duration, delay, ease }`. -/
structure TransitionConfig where
  duration : ℚ
  delay : ℚ
  ease : String
deriving DecidableEq

/-- The full prop object returned by the `fadeUp` presets. -/
structure FadeUpProps where
  initial : MotionTarget
  whileInView : MotionTarget
  viewport : ViewportOptions
  transition : TransitionConfig
deriving DecidableEq

/-- The shared Animation Preset Provider, utils/animations.js:
`export const fadeUp = (delay = 0) => ({ initial: { opacity: 0, y: 30 },
whileInView: { opacity: 1, y: 0 }, viewport: { once: true },
transition: { duration: 0.6, delay, ease: 'easeOut' } })`. -/
def fadeUp (delay : ℚ) : FadeUpProps :=
  { initial := { opacity := 0, y := 30 }
    whileInView := { opacity := 1, y := 0 }
    viewport := { once := true }
    transition := { duration := 0.6, delay := delay, ease := "easeOut" } }

/-- The local duplicate defined at the top of About.jsx:
`const fadeUp = (delay = 0) => ({ initial: { opacity: 0, y: 30 },
whileInView: { opacity: 1, y: 0 }, viewport: { once: true },
transition: { duration: 0.6, delay, ease: 'easeOut' } })`. -/
def aboutFadeUp (delay : ℚ) : FadeUpProps :=
  { initial := { opacity := 0, y := 30 }
    whileInView := { opacity := 1, y := 0 }
    viewport := { once := true }
    transition := { duration := 0.6, delay := delay, ease := "easeOut" } }

/-- Claim C4: for every non-negative delay `d`, `fadeUp d` is exactly the
configuration with hidden state opacity 0 / offset +30, visible state
opacity 1 / offset 0, one-shot viewport trigger, and an ease-out
transition of duration 0.6 starting after `d`; in particular at `d = 0.2`
the transition delay is 0.2 and the duration 0.6.  As a plain function of
its argument it is deterministic and effect-free. -/
theorem fadeUp_spec (d : ℚ) (_hd : 0 ≤ d) :
    fadeUp d =
      { initial := { opacity := 0, y := 30 }
        whileInView := { opacity := 1, y := 0 }
        viewport := { once := true }
        transition := { duration := 0.6, delay := d, ease := "easeOut" } } ∧
    (fadeUp 0.2).transition.delay = 0.2 ∧
    (fadeUp 0.2).transition.duration = 0.6 :=
  ⟨rfl, rfl, rfl⟩

/-- Concrete instantiation of `fadeUp_spec` at `d = 0.2`. -/
theorem fadeUp_spec_witness :
    (0 : ℚ) ≤ 0.2 ∧
    (fadeUp 0.2).transition.delay = 0.2 ∧
    (fadeUp 0.2).transition.duration = 0.6 :=
  ⟨by norm_num, (fadeUp_spec 0.2 (by norm_num)).2⟩

/-- Counterexample to claim C9 as stated: there is no non-negative delay
at which the shared preset and the About-local copy return different
configuration objects — the two copies are extensionally equal. -/
theorem fadeUp_copies_differ_cex :
    ¬ ∃ d : ℚ, 0 ≤ d ∧ fadeUp d ≠ aboutFadeUp d := by
  rintro ⟨d, -, hne⟩
  exact hne rfl

/-- Claim C9 (amended): the repository does contain two independent copies
of the animation-preset function (the shared `fadeUp` of
utils/animations.js and the local `fadeUp` of About.jsx), but the two
copies are identical: for every input delay they return the same
configuration object. -/
theorem fadeUp_copies_agree (d : ℚ) : fadeUp d = aboutFadeUp d := rfl

/-- The theme state of the `Portfolio` component together with the piece
of document state it drives: `darkMode` is the `useState` boolean,
`docDarkClass` records whether the `dark` class is currently present on
`document.documentElement`. -/
structure ThemeState where
  darkMode : Bool
  docDarkClass : Bool
deriving DecidableEq

/-- The dark-mode effect of App.jsx, run whenever `darkMode` changes:
`document.documentElement.classList.toggle('dark', darkMode)`. -/
def applyDarkModeEffect (s : ThemeState) : ThemeState :=
  { s with docDarkClass := s.darkMode }

/-- One activation of the Navbar theme toggle
(`onClick={() => setDarkMode(p => !p)}`) followed by the re-run of the
dark-mode effect that the state change triggers. -/
def toggleDarkMode (s : ThemeState) : ThemeState :=
  applyDarkModeEffect { s with darkMode := !s.darkMode }

/-- Claim C5: from any theme state, toggling twice restores the original
`darkMode` value, and after each individual toggle the document root's
`dark` class agrees with the theme state. -/
theorem theme_toggle_roundtrip (s : ThemeState) :
    (toggleDarkMode (toggleDarkMode s)).darkMode = s.darkMode ∧
    (toggleDarkMode s).docDarkClass = (toggleDarkMode s).darkMode ∧
    (toggleDarkMode (toggleDarkMode s)).docDarkClass
      = (toggleDarkMode (toggleDarkMode s)).darkMode := by
  refine ⟨?_, rfl, rfl⟩
  simp [toggleDarkMode, applyDarkModeEffect]

/-- One hobby category of the blog gallery (Blog.jsx,
`GALLERY_CATEGORIES`). -/
structure Category where
  id : String
  label : String
  emoji : String
  images : List String
deriving DecidableEq

/-- The first gallery category of Blog.jsx. -/
def footballCategory : Category :=
  { id := "football"
    label := "Football"
    emoji := "⚽"
    images :=
      ["https://images.unsplash.com/photo-1579952363873-27f3bade9f55?w=600&q=80",
       "https://images.unsplash.com/photo-1517927033932-b3d18e61fb3a?w=600&q=80",
       "https://images.unsplash.com/photo-1624880357913-a8539238245b?w=600&q=80"] }

/-- The second gallery category of Blog.jsx. -/
def chessCategory : Category :=
  { id := "chess"
    label := "Chess"
    emoji := "♟️"
    images :=
      ["https://images.unsplash.com/photo-1529699211952-734e80c4d42b?w=600&q=80",
       "https://images.unsplash.com/photo-1586165368502-1bad197a6461?w=600&q=80",
       "https://images.unsplash.com/photo-1580541631950-7282082b53ce?w=600&q=80"] }

/-- The third gallery category of Blog.jsx. -/
def marathonCategory : Category :=
  { id := "marathon"
    label := "Marathon Running"
    emoji := "🏃"
    images :=
      ["https://images.unsplash.com/photo-1502904550040-7534597429ae?w=600&q=80",
       "https://images.unsplash.com/photo-1571008887538-b36bb32f4571?w=600&q=80",
       "https://images.unsplash.com/photo-1461897104016-0b3b00cc81ee?w=600&q=80"] }

/-- The fourth gallery category of Blog.jsx. -/
def hikingCategory : Category :=
  { id := "hiking"
    label := "Hiking"
    emoji := "🧗"
    images :=
      ["https://images.unsplash.com/photo-1551632811-561732d1e306?w=600&q=80",
       "https://images.unsplash.com/photo-1527004013197-933c4bb611b3?w=600&q=80",
       "https://images.unsplash.com/photo-1464822759023-fed622ff2c3b?w=600&q=80"] }

/-- `const GALLERY_CATEGORIES = [...]` of Blog.jsx. -/
def GALLERY_CATEGORIES : List Category :=
  [footballCategory, chessCategory, marathonCategory, hikingCategory]

/-- The Gallery Selection State: the `{ src, alt }` record held by the
`lightbox` state of Blog.jsx while the lightbox is open. -/
structure Selection where
  src : String
  alt : String
deriving DecidableEq

/-- `useState(null)` — the lightbox state before any thumbnail click. -/
def initialLightbox : Option Selection := none

/-- `const handleImageClick = (src, alt) => setLightbox({ src, alt })`. -/
def handleImageClick (src alt : String) (_s : Option Selection) :
    Option Selection :=
  some { src := src, alt := alt }

/-- `const handleClose = () => setLightbox(null)`. -/
def handleClose (_s : Option Selection) : Option Selection := none

/-- The click handler attached to the `idx`-th thumbnail of a category in
`CategorySection`:
`onClick={() => onImageClick(src, `${category.label} photo ${idx + 1}`)}`,
where `src` is the `idx`-th entry of `category.images`. -/
def thumbnailActivate (cat : Category) (idx : Nat) (s : Option Selection) :
    Option Selection :=
  handleImageClick (cat.images.getD idx "")
    (cat.label ++ " photo " ++ toString (idx + 1)) s

/-- Claim C6: the selection state is `none` before any activation;
activating the `i`-th thumbnail of a gallery category from any state
stores exactly that image's source URL and its generated alt text; any
dismissal (backdrop or close control both call `handleClose`) returns the
state to `none`.  The state type `Option Selection` holds at most one
selection by construction. -/
theorem gallery_selection_spec (cat : Category) (i : Nat)
    (_hc : cat ∈ GALLERY_CATEGORIES) (hi : i < cat.images.length)
    (s t : Option Selection) :
    initialLightbox = none ∧
    thumbnailActivate cat i s =
      some { src := cat.images.get ⟨i, hi⟩
             alt := cat.label ++ " photo " ++ toString (i + 1) } ∧
    handleClose t = none := by
  refine ⟨rfl, ?_, rfl⟩
  simp [thumbnailActivate, handleImageClick, List.getD_eq_getElem, hi]

/-- Concrete instantiation of `gallery_selection_spec`: clicking the first
football thumbnail from the initial state. -/
theorem gallery_selection_spec_witness :
    footballCategory ∈ GALLERY_CATEGORIES ∧
    0 < footballCategory.images.length ∧
    thumbnailActivate footballCategory 0 initialLightbox =
      some { src := "https://images.unsplash.com/photo-1579952363873-27f3bade9f55?w=600&q=80"
             alt := "Football photo 1" } := by
  refine ⟨by decide, by decide, ?_⟩
  have h := (gallery_selection_spec footballCategory 0 (by decide) (by decide)
    initialLightbox none).2.1
  rw [h]
  rfl

/-- One entry of `NAV_LINKS` in Navbar.jsx: a label, the target section
id, and the optional external URL. -/
structure NavLink where
  label : String
  id : String
  external : Option String
deriving DecidableEq

/-- `const NAV_LINKS = [...]` of Navbar.jsx. -/
def NAV_LINKS : List NavLink :=
  [{ label := "about", id := "about", external := none },
   { label := "programming", id := "cp-life", external := none },
   { label := "projects", id := "projects", external := none },
   { label := "skills", id := "skills", external := none },
   { label := "experience", id := "experience", external := none },
   { label := "resume", id := "resume", external := none },
   { label := "blog", id := "blog", external := some "/blog" },
   { label := "connect", id := "connect", external := none }]

/-- The pieces of state a Navbar click can touch: the active-section
state (a prop owned by the `Portfolio` component — Navbar has no setter
for it), the mobile drawer flag, the last smooth-scroll target, and the
log of `window.open` calls as `(url, target)` pairs. -/
structure NavState where
  activeSection : String
  menuOpen : Bool
  scrolledTo : Option String
  openedTabs : List (String × String)
deriving DecidableEq

/-- The `scrollTo` helper of Navbar.jsx:
`document.getElementById(id)?.scrollIntoView({ behavior: 'smooth' });
setMenuOpen(false)`.  `present` tells whether the element with a given id
is in the DOM (the optional chaining skips the scroll when it is not). -/
def navScrollTo (present : String → Bool) (id : String) (s : NavState) :
    NavState :=
  let s1 := if present id then { s with scrolledTo := some id } else s
  { s1 with menuOpen := false }

/-- The click handler of a desktop nav link (Navbar.jsx):
`onClick={() => external ? window.open(external, '_blank') : scrollTo(id)}`. -/
def desktopNavClick (present : String → Bool) (link : NavLink)
    (s : NavState) : NavState :=
  match link.external with
  | some url => { s with openedTabs := s.openedTabs ++ [(url, "_blank")] }
  | none => navScrollTo present link.id s

/-- The click handler of a mobile drawer link (Navbar.jsx), the same
expression as the desktop one:
`onClick={() => external ? window.open(external, '_blank') : scrollTo(id)}`. -/
def mobileNavClick (present : String → Bool) (link : NavLink)
    (s : NavState) : NavState :=
  match link.external with
  | some url => { s with openedTabs := s.openedTabs ++ [(url, "_blank")] }
  | none => navScrollTo present link.id s

/-- Claim C7: activating a nav descriptor marked external (the `blog`
entry is one) opens its target in a new viewing context (`window.open`
with target `_blank`) and performs no write to the active-section value —
in both the desktop link list and the mobile drawer, the whole effect is
the appended `window.open` record. -/
theorem external_nav_frame (present : String → Bool) (link : NavLink)
    (url : String) (_hmem : link ∈ NAV_LINKS)
    (hext : link.external = some url) (s : NavState) :
    desktopNavClick present link s =
      { s with openedTabs := s.openedTabs ++ [(url, "_blank")] } ∧
    mobileNavClick present link s =
      { s with openedTabs := s.openedTabs ++ [(url, "_blank")] } ∧
    (desktopNavClick present link s).activeSection = s.activeSection ∧
    (mobileNavClick present link s).activeSection = s.activeSection := by
  have hd : desktopNavClick present link s =
      { s with openedTabs := s.openedTabs ++ [(url, "_blank")] } := by
    unfold desktopNavClick
    rw [hext]
  have hm : mobileNavClick present link s =
      { s with openedTabs := s.openedTabs ++ [(url, "_blank")] } := by
    unfold mobileNavClick
    rw [hext]
  exact ⟨hd, hm, by rw [hd], by rw [hm]⟩

/-- Concrete instantiation of `external_nav_frame` at the `blog` entry. -/
theorem external_nav_frame_witness :
    ({ label := "blog", id := "blog", external := some "/blog" } : NavLink)
        ∈ NAV_LINKS ∧
    (desktopNavClick (fun _ => true)
        { label := "blog", id := "blog", external := some "/blog" }
        { activeSection := "about", menuOpen := false, scrolledTo := none,
          openedTabs := [] }).activeSection = "about" :=
  ⟨by decide,
   (external_nav_frame (fun _ => true)
     { label := "blog", id := "blog", external := some "/blog" } "/blog"
     (by decide) rfl
     { activeSection := "about", menuOpen := false, scrolledTo := none,
       openedTabs := [] }).2.2.1⟩

/-- One `IntersectionObserver` created by the tracker effect of App.jsx,
together with whether it is still connected (`disconnect()` not yet
called). -/
structure SectionObserver where
  sectionId : String
  connected : Bool
deriving DecidableEq

/-- The mount effect of App.jsx: `SECTIONS.forEach((id) => { ... if (!el)
return; const obs = new IntersectionObserver(...); obs.observe(el);
observers.push(obs) })`.  `present` tells whether
`document.getElementById(id)` finds an element; absent sections are
skipped and contribute no observer. -/
def mountObservers (present : String → Bool) : List SectionObserver :=
  SECTIONS.foldl
    (fun acc id =>
      if present id then acc ++ [{ sectionId := id, connected := true }]
      else acc)
    []

/-- The cleanup function returned by the tracker effect:
`() => observers.forEach((o) => o.disconnect())`. -/
def disconnectAll (obs : List SectionObserver) : List SectionObserver :=
  obs.map (fun o => { o with connected := false })

/-- A disconnected `IntersectionObserver` delivers no further callbacks;
only a connected observer can fire. -/
def canFire (o : SectionObserver) : Bool := o.connected

/-- Claim C8: teardown releases every observer the mount effect created —
the cleanup disconnects each observer in the collected list (same
observers, by section id, none skipped), and afterwards none of them can
fire a visibility callback. -/
theorem observers_released (present : String → Bool) :
    (disconnectAll (mountObservers present)).map SectionObserver.sectionId
      = (mountObservers present).map SectionObserver.sectionId ∧
    ∀ o ∈ disconnectAll (mountObservers present), canFire o = false := by
  constructor
  · simp [disconnectAll]
  · intro o ho
    simp only [disconnectAll, List.mem_map] at ho
    obtain ⟨p, _, rfl⟩ := ho
    rfl

/-- Concrete instantiation of `observers_released`: with every section
element present, the observer for `about` ends up disconnected and unable
to fire. -/
theorem observers_released_witness :
    ({ sectionId := "about", connected := false } : SectionObserver)
        ∈ disconnectAll (mountObservers (fun _ => true)) ∧
    canFire { sectionId := "about", connected := false } = false :=
  ⟨by decide,
   (observers_released (fun _ => true)).2
     { sectionId := "about", connected := false } (by decide)⟩

/-- A click handler met while a lightbox click bubbles from its target to
the document root (Blog.jsx): `closeHandler` is `onClick={onClose}` (the
backdrop and the × button), `stopper` is
`onClick={e => e.stopPropagation()}` (the image wrapper). -/
inductive BubbleHandler where
  | closeHandler
  | stopper
deriving DecidableEq

/-- Bubbling dispatch of a click through the handlers on the path from
the click target up to the root: `onClose` resets the selection state to
`none` and the event keeps bubbling; `stopPropagation` stops the event,
so no later handler runs. -/
def dispatchClick : List BubbleHandler → Option Selection → Option Selection
  | [], s => s
  | BubbleHandler.closeHandler :: rest, _ => dispatchClick rest none
  | BubbleHandler.stopper :: _, s => s

/-- Handlers met by a click on the enlarged image itself: the image has
no handler, its wrapper stops propagation, the backdrop above would
close. -/
def imageClickPath : List BubbleHandler :=
  [BubbleHandler.stopper, BubbleHandler.closeHandler]

/-- Handlers met by a click directly on the backdrop. -/
def backdropClickPath : List BubbleHandler :=
  [BubbleHandler.closeHandler]

/-- Handlers met by a click on the × close button: the button closes,
then the wrapper stops the event before it reaches the backdrop. -/
def closeButtonClickPath : List BubbleHandler :=
  [BubbleHandler.closeHandler, BubbleHandler.stopper,
   BubbleHandler.closeHandler]

/-- Claim C10: with any lightbox selection open, clicking the enlarged
image leaves the selection unchanged (the wrapper's `stopPropagation`
keeps the click from the backdrop's dismissal handler), while clicking
the backdrop or the close control resets the selection to `none`. -/
theorem lightbox_click_frame (sel : Selection) :
    dispatchClick imageClickPath (some sel) = some sel ∧
    dispatchClick backdropClickPath (some sel) = none ∧
    dispatchClick closeButtonClickPath (some sel) = none :=
  ⟨rfl, rfl, rfl⟩
